import Mathlib

/-!
Shallow embedding of the gmodtest Netlify functions.

The repository holds two components, each in several revisions:

* a generation adapter that proxies prompts to an LLM backend:
  - `src/unnamed/part_000` — the "native conversational" Gemini proxy
    (modelled here with the `part000_` prefix);
  - `src/netlify/functions/generate-lua-code.js` (first file of the
    concatenation) — the structured-JSON-output Gemini proxy (modelled
    here with the `genA_` prefix);
* a single-slot command relay:
  - `src/netlify/functions/command-queue.js` — plaintext GET responses
    (modelled as `cq_handler`);
  - `src/unnamed/part_001` — JSON GET responses (modelled as
    `cq2_handler`); its POST branch is textually identical to the
    plaintext variant's, so both share `cq_post`.

Effects are made explicit: the mailbox state is threaded through the relay
handlers, and the outcomes of the effectful JavaScript steps (JSON.parse of
the request body, the outbound fetch together with response.json(), and the
inner JSON.parse of the structured answer) are supplied as inputs, with a
`.error`/`none` value standing for the step throwing an exception.
-/

/-- JavaScript truthiness of an optional string: `!x` holds exactly when the
value is `undefined`/`null` (here `none`) or the empty string. -/
def falsyStr : Option String → Bool
  | none => true
  | some s => s == ""

/-- `response.ok` of the Fetch API: the HTTP status is in the 2xx range. -/
def responseOk (status : Nat) : Bool :=
  decide (200 ≤ status ∧ status ≤ 299)

/-- One element of a Gemini `parts` array; `text` may be absent. -/
structure GeminiPart where
  text : Option String
  deriving DecidableEq

/-- A Gemini candidate `content` object; `parts` may be absent. -/
structure GeminiContent where
  parts : Option (List GeminiPart)
  deriving DecidableEq

/-- One element of a Gemini `candidates` array; `content` may be absent. -/
structure GeminiCandidate where
  content : Option GeminiContent
  deriving DecidableEq

/-- A Gemini `error` object; `message` may be absent. -/
structure GeminiError where
  message : Option String
  deriving DecidableEq

/-- The parsed JSON body of a backend response, keeping just the fields the
two adapters dereference: `error` and `candidates`. -/
structure GeminiResult where
  error : Option GeminiError
  candidates : Option (List GeminiCandidate)
  deriving DecidableEq

/-- A JSON value, used to model the caller-supplied request payload that the
native proxy forwards. An object is an association list of its fields. -/
inductive Json where
  | null
  | bool (b : Bool)
  | num (n : Int)
  | str (s : String)
  | arr (elems : List Json)
  | obj (fields : List (String × Json))

/-- part_000 line 66: `result.candidates?.[0]?.content?.parts?.[0]?.text` —
every link is guarded by `?.`, so the chain never throws and yields
`undefined` (`none`) as soon as one link is missing. -/
def nativeExtract (r : GeminiResult) : Option String :=
  ((((r.candidates.bind List.head?).bind GeminiCandidate.content).bind
      GeminiContent.parts).bind List.head?).bind GeminiPart.text

/-- The body of a part_000 HTTP response: either the JSON object
`JSON.stringify (with a message field)` or a raw text body. -/
inductive NativeBody where
  | message (m : String)
  | rawText (t : String)
  deriving DecidableEq

/-- A part_000 HTTP response: status, header list, body. -/
structure NativeResponse where
  statusCode : Nat
  headers : List (String × String)
  body : NativeBody
  deriving DecidableEq

/-- part_000 lines 14-21: `buildErrorResponse(statusCode, message)` — a JSON
`message` body with Content-Type and the CORS header on every call. -/
def buildErrorResponse (statusCode : Nat) (message : String) : NativeResponse :=
  { statusCode := statusCode
    headers := [("Content-Type", "application/json"),
                ("Access-Control-Allow-Origin", "*")]
    body := NativeBody.message message }

/-- part_000 lines 47-54: the outbound request body is the caller payload
after `delete payload.model` — only the `model` key is removed. -/
def part000_outboundBody (payload : List (String × Json)) : List (String × Json) :=
  payload.filter (fun kv => kv.1 != "model")

/-- Outcome of `fetch(...)` followed by `response.json()`: either a parsed
response (status plus parsed JSON body) or an exception with its message
(network failure or a non-JSON body). -/
inductive FetchOutcome where
  | response (status : Nat) (result : GeminiResult)
  | thrown (message : String)

/-- part_000 line 62: `result.error?.message || 'Gemini API returned an
error.'` — the fallback also fires when `message` is the empty string. -/
def geminiErrorMessage (result : GeminiResult) : String :=
  match result.error with
  | some e =>
    match e.message with
    | some m => if m = "" then "Gemini API returned an error." else m
    | none => "Gemini API returned an error."
  | none => "Gemini API returned an error."

/-- part_000 handler up to the fetch call (lines 23-47): either an early
response, in which case no outbound network call is made, or the outbound
request body. `payload` is the outcome of `JSON.parse(event.body)` (`none`
when it throws). Note there is no validation of the payload's contents. -/
def part000_preFetch (httpMethod : String) (apiKey : Option String)
    (payload : Option (List (String × Json))) :
    Except NativeResponse (List (String × Json)) :=
  if httpMethod ≠ "POST" then
    Except.error (buildErrorResponse 405 "Method Not Allowed")
  else if falsyStr apiKey then
    Except.error (buildErrorResponse 500
      "Server configuration error: GEMINI_API_KEY not set.")
  else
    match payload with
    | none => Except.error (buildErrorResponse 400 "Invalid JSON body in request.")
    | some p => Except.ok (part000_outboundBody p)

/-- part_000 lines 50-85: from the fetch onwards. A thrown fetch or body
parse lands in the catch clause (line 82); a non-2xx status is forwarded
with `geminiErrorMessage`; a missing or empty extracted text is a 500; and
a successful extraction is returned verbatim as a text/plain body. -/
def part000_postFetch (outcome : FetchOutcome) : NativeResponse :=
  match outcome with
  | FetchOutcome.thrown em =>
    buildErrorResponse 500 ("Internal server error during API call: " ++ em)
  | FetchOutcome.response status result =>
    if !(responseOk status) then
      buildErrorResponse status (geminiErrorMessage result)
    else
      let generatedText := nativeExtract result
      if falsyStr generatedText then
        buildErrorResponse 500 "Failed to extract generated Lua code from API response."
      else
        { statusCode := 200
          headers := [("Content-Type", "text/plain"),
                      ("Access-Control-Allow-Origin", "*")]
          body := NativeBody.rawText (generatedText.getD "") }

/-- The whole part_000 handler: the pre-fetch phase, then (when a fetch was
made) the post-fetch phase on the fetch outcome. -/
def part000_handler (httpMethod : String) (apiKey : Option String)
    (payload : Option (List (String × Json))) (outcome : FetchOutcome) :
    NativeResponse :=
  match part000_preFetch httpMethod apiKey payload with
  | Except.error r => r
  | Except.ok _ => part000_postFetch outcome

/-- The object produced by `JSON.parse(jsonString)` in the structured
variant, keeping the one field it dereferences: `lua_code`. -/
structure ParsedLua where
  lua_code : Option String
  deriving DecidableEq

/-- The `details` field of the structured variant's upstream-error body:
either the extracted `error.message` string or the raw parsed error body. -/
inductive GenADetails where
  | msg (m : String)
  | raw (b : GeminiResult)
  deriving DecidableEq

/-- Bodies of the structured variant's responses: a plain string body, a
JSON object with an `error` field, one with `error` and `details` fields,
the no-parsable-JSON fallback `code` body built from the response data
(line 110), and the success `code` body. -/
inductive GenABody where
  | plain (s : String)
  | err (e : String)
  | errDetails (e : String) (details : GenADetails)
  | fallbackNoParse (data : GeminiResult)
  | code (c : String)
  deriving DecidableEq

/-- A structured-variant HTTP response: status, header list, body. -/
structure GenAResponse where
  statusCode : Nat
  headers : List (String × String)
  body : GenABody
  deriving DecidableEq

/-- generate-lua-code.js line 122: the fallback placeholder stored in the
`code` field when the parsed `lua_code` is missing or blank. -/
def emptyCodeMarker : String := "// Error: AI returned empty code."

/-- Abbreviated message of the TypeError thrown by indexing `[0]` on a
missing array (the exact wording of the runtime message is irrelevant). -/
def typeErrorMessage : String := "Cannot read properties of undefined"

/-- generate-lua-code.js lines 131-137: the catch clause, a 500 with an
`error`/`details` JSON body and no headers. -/
def genA_catchResponse (em : String) : GenAResponse :=
  { statusCode := 500
    headers := []
    body := GenABody.errDetails "Internal Server Error" (GenADetails.msg em) }

/-- generate-lua-code.js line 99: `errorBody.error?.message || errorBody` —
the whole parsed error body is used when `error.message` is missing or the
empty string. -/
def genA_upstreamDetails (errorBody : GeminiResult) : GenADetails :=
  match errorBody.error with
  | some e =>
    match e.message with
    | some m => if m = "" then GenADetails.raw errorBody else GenADetails.msg m
    | none => GenADetails.raw errorBody
  | none => GenADetails.raw errorBody

/-- generate-lua-code.js line 107:
`data.candidates[0]?.content?.parts[0]?.text`. Indexing `[0]` on a missing
`candidates` or `parts` field throws a TypeError (`.error`); the `?.` links
short-circuit the rest of the chain to `undefined` (`.ok none`). -/
def genA_extract (data : GeminiResult) : Except String (Option String) :=
  match data.candidates with
  | none => Except.error typeErrorMessage
  | some cands =>
    match cands.head? with
    | none => Except.ok none
    | some cand =>
      match cand.content with
      | none => Except.ok none
      | some content =>
        match content.parts with
        | none => Except.error typeErrorMessage
        | some parts =>
          match parts.head? with
          | none => Except.ok none
          | some part => Except.ok part.text

/-- JavaScript `String.prototype.trim()`: drop the whitespace characters at
both ends of the string, written out on the character list. -/
def jsTrim (s : String) : String :=
  String.mk (((s.data.dropWhile Char.isWhitespace).reverse.dropWhile
    Char.isWhitespace).reverse)

/-- generate-lua-code.js line 122:
`parsedData.lua_code?.trim() || '// Error: AI returned empty code.'`. -/
def genA_luaCode (parsedData : ParsedLua) : String :=
  match parsedData.lua_code with
  | some s => if jsTrim s = "" then emptyCodeMarker else jsTrim s
  | none => emptyCodeMarker

/-- generate-lua-code.js lines 36-81: the handler up to the fetch call.
Either an early response (no outbound call) or the user-turn text the
outbound payload carries (line 63). `bodyParse` is the outcome of
`getRequestBody` (`.error` when JSON.parse throws, landing in the catch
clause); note the prompt check is plain `!prompt`, with no trimming. -/
def genA_preFetch (httpMethod : String) (apiKey : Option String)
    (bodyParse : Except String (Option String)) : Except GenAResponse String :=
  if httpMethod ≠ "POST" then
    Except.error { statusCode := 405, headers := [], body := GenABody.plain "Method Not Allowed" }
  else if falsyStr apiKey then
    Except.error { statusCode := 500, headers := []
                   body := GenABody.err "API Key (GEMINI_API_KEY) not configured." }
  else
    match bodyParse with
    | Except.error em => Except.error (genA_catchResponse em)
    | Except.ok promptOpt =>
      if falsyStr promptOpt then
        Except.error { statusCode := 400, headers := []
                       body := GenABody.err "Missing \"prompt\" in request body." }
      else
        Except.ok ("Generate the Lua code for the following command: " ++ promptOpt.getD "")

/-- generate-lua-code.js lines 83-129: from the fetch onwards. `innerParse`
is the outcome of `JSON.parse(jsonString)` on the extracted text (`.error`
when it throws, landing in the catch clause). -/
def genA_postFetch (outcome : FetchOutcome) (innerParse : Except String ParsedLua) :
    GenAResponse :=
  match outcome with
  | FetchOutcome.thrown em => genA_catchResponse em
  | FetchOutcome.response status data =>
    if !(responseOk status) then
      { statusCode := status
        headers := []
        body := GenABody.errDetails "Gemini API Request Failed" (genA_upstreamDetails data) }
    else
      match genA_extract data with
      | Except.error em => genA_catchResponse em
      | Except.ok jsonString =>
        if falsyStr jsonString then
          { statusCode := 500
            headers := [("Content-Type", "application/json")]
            body := GenABody.fallbackNoParse data }
        else
          match innerParse with
          | Except.error em => genA_catchResponse em
          | Except.ok parsedData =>
            { statusCode := 200
              headers := [("Content-Type", "application/json")]
              body := GenABody.code (genA_luaCode parsedData) }

/-- The whole structured-variant handler. -/
def genA_handler (httpMethod : String) (apiKey : Option String)
    (bodyParse : Except String (Option String)) (outcome : FetchOutcome)
    (innerParse : Except String ParsedLua) : GenAResponse :=
  match genA_preFetch httpMethod apiKey bodyParse with
  | Except.error r => r
  | Except.ok _ => genA_postFetch outcome innerParse

/-- Whether an `Except` computation reached its `.ok` leg; used to state
that a handler proceeded to the outbound fetch. -/
def isOkE {e a : Type} : Except e a → Bool
  | Except.ok _ => true
  | Except.error _ => false

/-- The relay's in-memory store (command-queue.js lines 7-10): the latest
Lua code string and the ISO timestamp of the last write (`null` = `none`). -/
structure CommandQueue where
  luaCode : String
  timestamp : Option String
  deriving DecidableEq

/-- The store at process start: empty code, null timestamp. -/
def initialQueue : CommandQueue := { luaCode := "", timestamp := none }

/-- Bodies of the relay's responses: a plain text body, JSON objects with an
`error` field, with `error` and `details` fields, with a `message` field,
and the JSON variant's GET body `code`/`timestamp`/`message` (part_001
lines 51-55). -/
inductive CqBody where
  | plain (s : String)
  | errorMsg (e : String)
  | errorDetails (e : String) (details : String)
  | message (m : String)
  | getData (code : String) (timestamp : Option String) (msg : String)
  deriving DecidableEq

/-- A relay HTTP response: status, header list, body. -/
structure CqResponse where
  statusCode : Nat
  headers : List (String × String)
  body : CqBody
  deriving DecidableEq

/-- The POST branch, textually identical in both relay variants (lines
26-42): a falsy `code` is a 400 with the slot untouched; otherwise the slot
is overwritten with the code and the current timestamp. `bodyParse` is the
outcome of `getRequestBody` (`.error` when JSON.parse throws, landing in
the catch clause with the slot untouched). -/
def cq_post (st : CommandQueue) (bodyParse : Except String (Option String))
    (now : String) : CqResponse × CommandQueue :=
  match bodyParse with
  | Except.error em =>
    ({ statusCode := 500, headers := []
       body := CqBody.errorDetails "Internal Server Error" em }, st)
  | Except.ok codeOpt =>
    if falsyStr codeOpt then
      ({ statusCode := 400, headers := []
         body := CqBody.errorMsg "Missing \"code\" in request body." }, st)
    else
      ({ statusCode := 200
         headers := [("Content-Type", "application/json")]
         body := CqBody.message "Command queued successfully (in-memory)." },
       { luaCode := codeOpt.getD "", timestamp := some now })

/-- command-queue.js lines 44-62, the plaintext GET: the stored code is
captured, sent as a text/plain body, and — when non-empty — only the
`luaCode` field is cleared (the timestamp is left as it was). -/
def cq_get (st : CommandQueue) : CqResponse × CommandQueue :=
  let luaCode := st.luaCode
  ({ statusCode := 200
     headers := [("Content-Type", "text/plain")]
     body := CqBody.plain luaCode },
   if luaCode ≠ "" then { st with luaCode := "" } else st)

/-- The plaintext relay handler (command-queue.js). -/
def cq_handler (st : CommandQueue) (httpMethod : String)
    (bodyParse : Except String (Option String)) (now : String) :
    CqResponse × CommandQueue :=
  if httpMethod = "POST" then cq_post st bodyParse now
  else if httpMethod = "GET" then cq_get st
  else ({ statusCode := 405, headers := [], body := CqBody.plain "Method Not Allowed" }, st)

/-- part_001 lines 44-70, the JSON GET: the stored code and timestamp are
captured into a `code`/`timestamp`/`message` object, and — when the code is
non-empty — both fields are cleared. -/
def cq2_get (st : CommandQueue) : CqResponse × CommandQueue :=
  let luaCode := st.luaCode
  let ts := st.timestamp
  let msg := if luaCode ≠ "" then "Command found." else "No new command."
  ({ statusCode := 200
     headers := [("Content-Type", "application/json")]
     body := CqBody.getData luaCode ts msg },
   if luaCode ≠ "" then { luaCode := "", timestamp := none } else st)

/-- The JSON relay handler (part_001). -/
def cq2_handler (st : CommandQueue) (httpMethod : String)
    (bodyParse : Except String (Option String)) (now : String) :
    CqResponse × CommandQueue :=
  if httpMethod = "POST" then cq_post st bodyParse now
  else if httpMethod = "GET" then cq2_get st
  else ({ statusCode := 405, headers := [], body := CqBody.plain "Method Not Allowed" }, st)

/-- A producer write through the plaintext handler. -/
def cqWrite (st : CommandQueue) (code now : String) : CqResponse × CommandQueue :=
  cq_handler st "POST" (Except.ok (some code)) now

/-- A consumer read through the plaintext handler. -/
def cqRead (st : CommandQueue) (now : String) : CqResponse × CommandQueue :=
  cq_handler st "GET" (Except.ok none) now

/-- A producer write through the JSON handler. -/
def cq2Write (st : CommandQueue) (code now : String) : CqResponse × CommandQueue :=
  cq2_handler st "POST" (Except.ok (some code)) now

/-- A consumer read through the JSON handler. -/
def cq2Read (st : CommandQueue) (now : String) : CqResponse × CommandQueue :=
  cq2_handler st "GET" (Except.ok none) now

/-- Claim C1: after a `write(X)` with non-empty `X`, two sequential reads
yield `X` on the first read and the empty marker on the second, in both
relay variants: the serving read clears the slot in the same operation, so
the command is never observed twice under sequential execution. -/
theorem C1_relay_at_most_once (st st' : CommandQueue) (X now n1 n2 : String)
    (hX : X ≠ "") :
    (cqRead (cqWrite st X now).2 n1).1.body = CqBody.plain X ∧
    (cqRead (cqRead (cqWrite st X now).2 n1).2 n2).1.body = CqBody.plain "" ∧
    (cq2Read (cq2Write st' X now).2 n1).1.body
      = CqBody.getData X (some now) "Command found." ∧
    (cq2Read (cq2Read (cq2Write st' X now).2 n1).2 n2).1.body
      = CqBody.getData "" none "No new command." := by
  simp [cqRead, cqWrite, cq2Read, cq2Write, cq_handler, cq2_handler, cq_post,
    cq_get, cq2_get, falsyStr, hX]

theorem C1_relay_at_most_once_witness :
    ("print(1)" : String) ≠ "" ∧
    ((cqRead (cqWrite initialQueue "print(1)" "t0").2 "t1").1.body
        = CqBody.plain "print(1)" ∧
      (cqRead (cqRead (cqWrite initialQueue "print(1)" "t0").2 "t1").2 "t2").1.body
        = CqBody.plain "" ∧
      (cq2Read (cq2Write initialQueue "print(1)" "t0").2 "t1").1.body
        = CqBody.getData "print(1)" (some "t0") "Command found." ∧
      (cq2Read (cq2Read (cq2Write initialQueue "print(1)" "t0").2 "t1").2 "t2").1.body
        = CqBody.getData "" none "No new command.") :=
  ⟨by decide,
   C1_relay_at_most_once initialQueue initialQueue "print(1)" "t0" "t1" "t2" (by decide)⟩

/-- Claim C9: a read on an empty slot returns the explicit empty marker (the
empty plaintext body, resp. the JSON object with empty `code` and the
"No new command." message) and leaves the state unchanged, for any number of
repeated reads, in both relay variants. -/
theorem C9_empty_read_idempotent (st : CommandQueue) (now : String) (k : Nat)
    (h : st.luaCode = "") :
    (cqRead st now).1.body = CqBody.plain "" ∧
    (cqRead st now).2 = st ∧
    (cq2Read st now).1.body = CqBody.getData "" st.timestamp "No new command." ∧
    (cq2Read st now).2 = st ∧
    Nat.iterate (fun s => (cqRead s now).2) k st = st ∧
    Nat.iterate (fun s => (cq2Read s now).2) k st = st := by
  have h1 : (cqRead st now).2 = st := by
    simp [cqRead, cq_handler, cq_get, h]
  have h2 : (cq2Read st now).2 = st := by
    simp [cq2Read, cq2_handler, cq2_get, h]
  refine ⟨by simp [cqRead, cq_handler, cq_get, h],
    h1,
    by simp [cq2Read, cq2_handler, cq2_get, h],
    h2, ?_, ?_⟩
  · induction k with
    | zero => rfl
    | succ k ih =>
      rw [Function.iterate_succ_apply', ih, h1]
  · induction k with
    | zero => rfl
    | succ k ih =>
      rw [Function.iterate_succ_apply', ih, h2]

theorem C9_empty_read_idempotent_witness :
    ({ luaCode := "", timestamp := some "t0" } : CommandQueue).luaCode = "" ∧
    ((cqRead { luaCode := "", timestamp := some "t0" } "t1").1.body = CqBody.plain "" ∧
      (cqRead { luaCode := "", timestamp := some "t0" } "t1").2
        = { luaCode := "", timestamp := some "t0" } ∧
      (cq2Read { luaCode := "", timestamp := some "t0" } "t1").1.body
        = CqBody.getData ""
            ({ luaCode := "", timestamp := some "t0" } : CommandQueue).timestamp
            "No new command." ∧
      (cq2Read { luaCode := "", timestamp := some "t0" } "t1").2
        = { luaCode := "", timestamp := some "t0" } ∧
      Nat.iterate (fun s => (cqRead s "t1").2) 3 { luaCode := "", timestamp := some "t0" }
        = { luaCode := "", timestamp := some "t0" } ∧
      Nat.iterate (fun s => (cq2Read s "t1").2) 3 { luaCode := "", timestamp := some "t0" }
        = { luaCode := "", timestamp := some "t0" }) :=
  ⟨by decide, C9_empty_read_idempotent { luaCode := "", timestamp := some "t0" } "t1" 3 (by decide)⟩

/-- Claim C10: in the plaintext relay variant, a read that serves a pending
command clears only the `luaCode` field; the stored timestamp is unchanged
and, after a write at time `ts` followed by the serving read, still holds
`ts`. -/
theorem C10_read_clears_only_code (st : CommandQueue) (now X ts n1 : String)
    (h : st.luaCode ≠ "") (hX : X ≠ "") :
    (cqRead st now).2.luaCode = "" ∧
    (cqRead st now).2.timestamp = st.timestamp ∧
    (cqRead (cqWrite st X ts).2 n1).2.timestamp = some ts := by
  simp [cqRead, cqWrite, cq_handler, cq_post, cq_get, falsyStr, h, hX]

theorem C10_read_clears_only_code_witness :
    ({ luaCode := "old", timestamp := some "t0" } : CommandQueue).luaCode ≠ "" ∧
    ("new" : String) ≠ "" ∧
    ((cqRead { luaCode := "old", timestamp := some "t0" } "t2").2.luaCode = "" ∧
      (cqRead { luaCode := "old", timestamp := some "t0" } "t2").2.timestamp = some "t0" ∧
      (cqRead (cqWrite { luaCode := "old", timestamp := some "t0" } "new" "t1").2 "t2").2.timestamp
        = some "t1") :=
  ⟨by decide, by decide,
   C10_read_clears_only_code { luaCode := "old", timestamp := some "t0" } "t2" "new" "t1" "t2"
     (by decide) (by decide)⟩

/-- Claim C3, counterexample: the relay has no minimum-length check —
`write("ab")` is accepted with status 200 and overwrites the slot in both
variants, while the claim requires a 400 rejection with the slot
unchanged. -/
theorem C3_counterexample :
    (cqWrite initialQueue "ab" "t0").1.statusCode = 200 ∧
    (cqWrite initialQueue "ab" "t0").2 = { luaCode := "ab", timestamp := some "t0" } ∧
    (cq2Write initialQueue "ab" "t0").1.statusCode = 200 ∧
    (cq2Write initialQueue "ab" "t0").2 = { luaCode := "ab", timestamp := some "t0" } := by
  refine ⟨rfl, rfl, rfl, rfl⟩

/-- Claim C3 as amended: the shared POST branch rejects with 400, leaving
the slot unchanged, exactly when the supplied code is missing or the empty
string; any non-empty code — regardless of length — is accepted with 200
and stored with the current timestamp. -/
theorem C3_amended_write_validation (st : CommandQueue) (now : String)
    (codeOpt : Option String) :
    cq_handler st "POST" (Except.ok codeOpt) now = cq_post st (Except.ok codeOpt) now ∧
    cq2_handler st "POST" (Except.ok codeOpt) now = cq_post st (Except.ok codeOpt) now ∧
    (cq_post st (Except.ok codeOpt) now).1.statusCode
      = (if falsyStr codeOpt then 400 else 200) ∧
    (cq_post st (Except.ok codeOpt) now).2
      = (if falsyStr codeOpt then st
         else { luaCode := codeOpt.getD "", timestamp := some now }) := by
  refine ⟨rfl, rfl, ?_, ?_⟩ <;>
  · cases codeOpt with
    | none => simp [cq_post, falsyStr]
    | some s =>
      by_cases hs : s = "" <;> simp [cq_post, falsyStr, hs]

/-- A successful backend outcome whose single part text is the non-empty
string "ok". -/
def fetchOkSample : FetchOutcome :=
  FetchOutcome.response 200
    { error := none
      candidates := some [{ content := some { parts := some [{ text := some "ok" }] } }] }

/-- Claim C4, counterexample: the structured variant's success response —
like all of its responses — carries no Access-Control-Allow-Origin header,
while the claim requires the header on every response of the generation
adapter. -/
theorem C4_counterexample :
    (genA_handler "POST" (some "k") (Except.ok (some "hi")) fetchOkSample
        (Except.ok { lua_code := some "print(1)" })).statusCode = 200 ∧
    ("Access-Control-Allow-Origin", "*") ∉
      (genA_handler "POST" (some "k") (Except.ok (some "hi")) fetchOkSample
        (Except.ok { lua_code := some "print(1)" })).headers := by
  exact ⟨rfl, by decide⟩

/-- Claim C4 as amended: every response of the native proxy variant
(part_000) carries `Access-Control-Allow-Origin: *`, on success and error
alike; the structured variant (generate-lua-code.js) never sets that header
on any of its responses. -/
theorem C4_amended_cors (httpMethod : String) (apiKey : Option String)
    (payload : Option (List (String × Json))) (outcome : FetchOutcome)
    (bodyParse : Except String (Option String))
    (innerParse : Except String ParsedLua) :
    ("Access-Control-Allow-Origin", "*")
      ∈ (part000_handler httpMethod apiKey payload outcome).headers ∧
    ("Access-Control-Allow-Origin", "*")
      ∉ (genA_handler httpMethod apiKey bodyParse outcome innerParse).headers := by
  have hpost : ∀ oc : FetchOutcome,
      ("Access-Control-Allow-Origin", "*") ∈ (part000_postFetch oc).headers := by
    intro oc
    cases oc with
    | thrown em => simp [part000_postFetch, buildErrorResponse]
    | response status result =>
      simp only [part000_postFetch]
      split
      · simp [buildErrorResponse]
      · split
        · simp [buildErrorResponse]
        · simp
  have hgpost : ∀ (oc : FetchOutcome) (ip : Except String ParsedLua),
      ("Access-Control-Allow-Origin", "*") ∉ (genA_postFetch oc ip).headers := by
    intro oc ip
    cases oc with
    | thrown em => simp [genA_postFetch, genA_catchResponse]
    | response status data =>
      simp only [genA_postFetch]
      split
      · simp
      · split
        · simp [genA_catchResponse]
        · split
          · simp
          · split
            · simp [genA_catchResponse]
            · simp
  constructor
  · by_cases hm : httpMethod = "POST"
    · subst hm
      by_cases hk : falsyStr apiKey
      · simp [part000_handler, part000_preFetch, hk, buildErrorResponse]
      · cases payload with
        | none => simp [part000_handler, part000_preFetch, hk, buildErrorResponse]
        | some p =>
          simpa [part000_handler, part000_preFetch, hk] using hpost outcome
    · simp [part000_handler, part000_preFetch, hm, buildErrorResponse]
  · by_cases hm : httpMethod = "POST"
    · subst hm
      by_cases hk : falsyStr apiKey
      · simp [genA_handler, genA_preFetch, hk]
      · cases bodyParse with
        | error em => simp [genA_handler, genA_preFetch, hk, genA_catchResponse]
        | ok promptOpt =>
          by_cases hp : falsyStr promptOpt
          · simp [genA_handler, genA_preFetch, hk, hp]
          · simpa [genA_handler, genA_preFetch, hk, hp] using hgpost outcome innerParse
    · simp [genA_handler, genA_preFetch, hm]

/-- Claim C5, counterexample: a whitespace-only prompt `" "` is not
rejected — the structured variant proceeds to the outbound fetch and
answers 200 — and the native variant applies no prompt validation at all: a
parseable body with no prompt anywhere still reaches the fetch. -/
theorem C5_counterexample :
    isOkE (genA_preFetch "POST" (some "k") (Except.ok (some " "))) = true ∧
    (genA_handler "POST" (some "k") (Except.ok (some " ")) fetchOkSample
        (Except.ok { lua_code := some "print(1)" })).statusCode = 200 ∧
    isOkE (part000_preFetch "POST" (some "k") (some [("foo", Json.num 1)])) = true := by
  exact ⟨rfl, rfl, rfl⟩

/-- Claim C5 as amended: with the API key configured, the structured variant
rejects with a 400 and no outbound call exactly when the prompt is missing
or the empty string — the check is plain `!prompt` with no trimming, so a
whitespace-only prompt is forwarded to the backend — and the native variant
performs no prompt validation at all: every parseable JSON body reaches the
fetch. -/
theorem C5_amended_prompt_validation (apiKey : Option String)
    (promptOpt : Option String) (payload : List (String × Json))
    (h : falsyStr apiKey = false) :
    genA_preFetch "POST" apiKey (Except.ok promptOpt)
      = (if falsyStr promptOpt then
           Except.error { statusCode := 400, headers := []
                          body := GenABody.err "Missing \"prompt\" in request body." }
         else
           Except.ok ("Generate the Lua code for the following command: "
             ++ promptOpt.getD "")) ∧
    isOkE (part000_preFetch "POST" apiKey (some payload)) = true := by
  constructor
  · simp [genA_preFetch, h]
  · simp [part000_preFetch, h, isOkE]

theorem C5_amended_prompt_validation_witness :
    falsyStr (some "k") = false ∧
    (genA_preFetch "POST" (some "k") (Except.ok (some " "))
        = (if falsyStr (some " ") then
             Except.error { statusCode := 400, headers := []
                            body := GenABody.err "Missing \"prompt\" in request body." }
           else
             Except.ok ("Generate the Lua code for the following command: "
               ++ (some " ").getD "")) ∧
      isOkE (part000_preFetch "POST" (some "k") (some [])) = true) :=
  ⟨by decide, C5_amended_prompt_validation (some "k") (some " ") [] (by decide)⟩

/-- Claim C8, counterexample: the native proxy forwards every caller key
except `model` — a stray caller-supplied key `foo`, which is none of
`contents`, `systemInstruction` or a generation-config key, survives into
the outbound body, while the claim requires it to be dropped. -/
theorem C8_counterexample :
    ("foo", Json.num 1) ∈ part000_outboundBody
      [("contents", Json.arr []), ("model", Json.str "m"), ("foo", Json.num 1)] ∧
    ("foo" : String) ≠ "contents" ∧
    ("foo" : String) ≠ "systemInstruction" ∧
    ("foo" : String) ≠ "generationConfig" := by
  refine ⟨?_, by decide, by decide, by decide⟩
  have h : part000_outboundBody
      [("contents", Json.arr []), ("model", Json.str "m"), ("foo", Json.num 1)]
      = [("contents", Json.arr []), ("foo", Json.num 1)] := rfl
  rw [h]
  exact List.mem_cons_of_mem _ (List.mem_cons_self _ _)

/-- Claim C8 as amended: the outbound envelope of the native proxy contains
exactly the caller-supplied keys other than `model`: only the `model` key is
removed; every other caller-supplied key — whatever it is — is forwarded
verbatim to the backend. -/
theorem C8_amended_only_model_dropped (payload : List (String × Json))
    (k : String) (v : Json) :
    (k, v) ∈ part000_outboundBody payload ↔ (k, v) ∈ payload ∧ k ≠ "model" := by
  simp [part000_outboundBody, List.mem_filter, bne_iff_ne]

/-- An upstream error body with no `error` field at all. -/
def noMessageBody : GeminiResult := { error := none, candidates := none }

/-- An upstream error body with an `error` object but no `message` field. -/
def noMessageBody2 : GeminiResult :=
  { error := some { message := none }, candidates := none }

/-- An upstream error body carrying `error.message = "rate limited"`. -/
def rateLimitedBody : GeminiResult :=
  { error := some { message := some "rate limited" }, candidates := none }

/-- Claim C6, counterexample: for an upstream 429 whose JSON body carries no
`error.message`, the native proxy answers with the fixed fallback message
"Gemini API returned an error.", not with the raw error body: two distinct
raw bodies yield the very same response, so the message cannot equal the
raw error body as the claim requires. -/
theorem C6_counterexample :
    part000_handler "POST" (some "k") (some [])
        (FetchOutcome.response 429 noMessageBody)
      = buildErrorResponse 429 "Gemini API returned an error." ∧
    part000_handler "POST" (some "k") (some [])
        (FetchOutcome.response 429 noMessageBody2)
      = buildErrorResponse 429 "Gemini API returned an error." ∧
    noMessageBody ≠ noMessageBody2 := by
  exact ⟨rfl, rfl, by decide⟩

/-- Claim C6 as amended: a non-success backend status is surfaced with the
backend's own status code by both adapter variants, and the message is the
body's `error.message` whenever that field is present and non-empty; when
it is absent, the structured variant attaches the raw parsed error body as
its `details` field, while the native variant substitutes the fixed message
"Gemini API returned an error." rather than the raw body. In particular an
upstream 429 with body error.message "rate limited" yields status 429 with
message "rate limited" in both variants. -/
theorem C6_amended_upstream_mapping (status : Nat) (body : GeminiResult)
    (innerParse : Except String ParsedLua) (m : String)
    (h : responseOk status = false) :
    part000_postFetch (FetchOutcome.response status body)
      = buildErrorResponse status (geminiErrorMessage body) ∧
    (genA_postFetch (FetchOutcome.response status body) innerParse).statusCode
      = status ∧
    (genA_postFetch (FetchOutcome.response status body) innerParse).body
      = GenABody.errDetails "Gemini API Request Failed" (genA_upstreamDetails body) ∧
    (body.error = some { message := some m } → m ≠ "" →
      geminiErrorMessage body = m ∧ genA_upstreamDetails body = GenADetails.msg m) := by
  refine ⟨?_, ?_, ?_, ?_⟩
  · simp [part000_postFetch, h]
  · simp [genA_postFetch, h]
  · simp [genA_postFetch, h]
  · intro he hm
    simp [geminiErrorMessage, genA_upstreamDetails, he, hm]

theorem C6_amended_upstream_mapping_witness :
    responseOk 429 = false ∧
    (part000_postFetch (FetchOutcome.response 429 rateLimitedBody)
        = buildErrorResponse 429 "rate limited" ∧
      (genA_postFetch (FetchOutcome.response 429 rateLimitedBody)
          (Except.ok { lua_code := none })).statusCode = 429 ∧
      (genA_postFetch (FetchOutcome.response 429 rateLimitedBody)
          (Except.ok { lua_code := none })).body
        = GenABody.errDetails "Gemini API Request Failed"
            (GenADetails.msg "rate limited") ∧
      (rateLimitedBody.error = some { message := some "rate limited" } →
        ("rate limited" : String) ≠ "" →
        geminiErrorMessage rateLimitedBody = "rate limited" ∧
        genA_upstreamDetails rateLimitedBody = GenADetails.msg "rate limited")) :=
  ⟨by decide,
   C6_amended_upstream_mapping 429 rateLimitedBody (Except.ok { lua_code := none })
     "rate limited" (by decide)⟩

/-- A 2xx backend body whose single part text is the two-character string
"\x7b\x7d" — an empty JSON object, which parses successfully to an object
with no `lua_code` field. -/
def emptyObjectTextBody : GeminiResult :=
  { error := none
    candidates := some [{ content := some { parts := some [{ text := some "\x7b\x7d" }] } }] }

/-- A 2xx backend body with an empty `candidates` array. -/
def noCandidatesBody : GeminiResult := { error := none, candidates := some [] }

/-- A 2xx backend body whose first candidate has no `content` field. -/
def noContentBody : GeminiResult :=
  { error := none, candidates := some [{ content := none }] }

/-- Claim C2, counterexample: when the backend call succeeds and the outer
text extracts fine but the parsed inner JSON object has no `lua_code` field
(here the backend text is the empty object "\x7b\x7d"), the structured
variant answers 200 with the placeholder string in `code` — a success
response — instead of the 500 error the claim requires for every
extraction failure. -/
theorem C2_counterexample :
    (genA_handler "POST" (some "k") (Except.ok (some "hi"))
        (FetchOutcome.response 200 emptyObjectTextBody)
        (Except.ok { lua_code := none })).statusCode = 200 ∧
    (genA_handler "POST" (some "k") (Except.ok (some "hi"))
        (FetchOutcome.response 200 emptyObjectTextBody)
        (Except.ok { lua_code := none })).body
      = GenABody.code "// Error: AI returned empty code." := by
  exact ⟨rfl, rfl⟩

/-- Claim C2 as amended: on an HTTP-success backend response, the native
variant turns every failed extraction (missing field, wrong shape, empty
candidates) into a 500 with a distinct message; the structured variant
turns a missing or empty outer text into a 500 and an inner JSON parse
failure into a 500, but a successfully parsed inner object whose `lua_code`
is missing or whitespace-only yields a 200 whose `code` is the fixed
non-empty placeholder; in every case the `code` of a 200 response is
non-empty. -/
theorem C2_amended_extraction_failures (status : Nat)
    (resultA resultB resultD : GeminiResult) (js em : String)
    (jsOpt : Option String) (d : ParsedLua)
    (h : responseOk status = true)
    (hA : falsyStr (nativeExtract resultA) = true)
    (hB : genA_extract resultB = Except.ok (some js)) (hjs : js ≠ "")
    (hD : genA_extract resultD = Except.ok jsOpt)
    (hjsD : falsyStr jsOpt = true) :
    part000_postFetch (FetchOutcome.response status resultA)
      = buildErrorResponse 500
          "Failed to extract generated Lua code from API response." ∧
    genA_postFetch (FetchOutcome.response status resultD) (Except.ok d)
      = { statusCode := 500
          headers := [("Content-Type", "application/json")]
          body := GenABody.fallbackNoParse resultD } ∧
    genA_postFetch (FetchOutcome.response status resultB) (Except.error em)
      = genA_catchResponse em ∧
    (genA_catchResponse em).statusCode = 500 ∧
    genA_postFetch (FetchOutcome.response status resultB) (Except.ok d)
      = { statusCode := 200
          headers := [("Content-Type", "application/json")]
          body := GenABody.code (genA_luaCode d) } ∧
    genA_luaCode d ≠ "" := by
  refine ⟨?_, ?_, ?_, rfl, ?_, ?_⟩
  · simp [part000_postFetch, h, hA]
  · simp [genA_postFetch, h, hD, hjsD]
  · simp [genA_postFetch, h, hB, falsyStr, hjs]
  · simp [genA_postFetch, h, hB, falsyStr, hjs]
  · unfold genA_luaCode
    cases hd : d.lua_code with
    | none => simp [emptyCodeMarker]
    | some s =>
      by_cases hs : jsTrim s = "" <;> simp [hs, emptyCodeMarker]

theorem C2_amended_extraction_failures_witness :
    responseOk 200 = true ∧
    falsyStr (nativeExtract noCandidatesBody) = true ∧
    genA_extract emptyObjectTextBody = Except.ok (some "\x7b\x7d") ∧
    ("\x7b\x7d" : String) ≠ "" ∧
    genA_extract noContentBody = Except.ok none ∧
    falsyStr (none : Option String) = true ∧
    (part000_postFetch (FetchOutcome.response 200 noCandidatesBody)
        = buildErrorResponse 500
            "Failed to extract generated Lua code from API response." ∧
      genA_postFetch (FetchOutcome.response 200 noContentBody)
          (Except.ok { lua_code := none })
        = { statusCode := 500
            headers := [("Content-Type", "application/json")]
            body := GenABody.fallbackNoParse noContentBody } ∧
      genA_postFetch (FetchOutcome.response 200 emptyObjectTextBody)
          (Except.error "Unexpected end of JSON input")
        = genA_catchResponse "Unexpected end of JSON input" ∧
      (genA_catchResponse "Unexpected end of JSON input").statusCode = 500 ∧
      genA_postFetch (FetchOutcome.response 200 emptyObjectTextBody)
          (Except.ok { lua_code := none })
        = { statusCode := 200
            headers := [("Content-Type", "application/json")]
            body := GenABody.code (genA_luaCode { lua_code := none }) } ∧
      genA_luaCode { lua_code := none } ≠ "") :=
  ⟨by decide, by decide, rfl, by decide, rfl, by decide,
   C2_amended_extraction_failures 200 noCandidatesBody emptyObjectTextBody
     noContentBody "\x7b\x7d" "Unexpected end of JSON input" none
     { lua_code := none } (by decide) (by decide) rfl (by decide)
     rfl (by decide)⟩

/-- A 2xx backend body whose single part text is "  print(1) ", carrying
surrounding whitespace. -/
def nativeTextBody : GeminiResult :=
  { error := none
    candidates := some [{ content := some { parts := some [{ text := some "  print(1) " }] } }] }

/-- Claim C7: round-trip fidelity of a successful generation. When the
native proxy extracts text `T` (non-empty), its success body is `T` itself,
byte for byte, with no transformation at all; when the structured variant's
parsed inner object carries `lua_code = U` with `U` not whitespace-only,
its success body is exactly `U.trim` — `U` with nothing but its surrounding
whitespace stripped, no re-escaping and no interior change. -/
theorem C7_roundtrip_fidelity (status : Nat) (resultN resultS : GeminiResult)
    (T U js : String) (h : responseOk status = true)
    (hN : nativeExtract resultN = some T) (hT : T ≠ "")
    (hS : genA_extract resultS = Except.ok (some js)) (hjs : js ≠ "")
    (hU : jsTrim U ≠ "") :
    part000_postFetch (FetchOutcome.response status resultN)
      = { statusCode := 200
          headers := [("Content-Type", "text/plain"),
                      ("Access-Control-Allow-Origin", "*")]
          body := NativeBody.rawText T } ∧
    genA_postFetch (FetchOutcome.response status resultS)
        (Except.ok { lua_code := some U })
      = { statusCode := 200
          headers := [("Content-Type", "application/json")]
          body := GenABody.code (jsTrim U) } := by
  constructor
  · simp [part000_postFetch, h, hN, falsyStr, hT]
  · simp [genA_postFetch, h, hS, falsyStr, hjs, genA_luaCode, hU]

theorem C7_roundtrip_fidelity_witness :
    responseOk 200 = true ∧
    nativeExtract nativeTextBody = some "  print(1) " ∧
    ("  print(1) " : String) ≠ "" ∧
    genA_extract emptyObjectTextBody = Except.ok (some "\x7b\x7d") ∧
    ("\x7b\x7d" : String) ≠ "" ∧
    jsTrim "  print(2)\n" ≠ "" ∧
    (part000_postFetch (FetchOutcome.response 200 nativeTextBody)
        = { statusCode := 200
            headers := [("Content-Type", "text/plain"),
                        ("Access-Control-Allow-Origin", "*")]
            body := NativeBody.rawText "  print(1) " } ∧
      genA_postFetch (FetchOutcome.response 200 emptyObjectTextBody)
          (Except.ok { lua_code := some "  print(2)\n" })
        = { statusCode := 200
            headers := [("Content-Type", "application/json")]
            body := GenABody.code (jsTrim "  print(2)\n") }) :=
  ⟨by decide, by decide, by decide, rfl, by decide, by decide,
   C7_roundtrip_fidelity 200 nativeTextBody emptyObjectTextBody
     "  print(1) " "  print(2)\n" "\x7b\x7d" (by decide) (by decide)
     (by decide) rfl (by decide) (by decide)⟩
